import Mathlib

/-!
Verification of the client upload-and-analysis contract of the
AI-Calorie-Counter web application.

The client component (`src/frontend/src/App.tsx`) keeps five state fields
(`fileList`, `uploading`, `imageUrl`, `result`, `error`), admits files
through `beforeUpload`, submits the selected file in `handleUpload`, and
renders the current state as a pure function.  We embed that component
shallowly: the state is an explicit record, `handleUpload` is a function of
the state and of an environment value describing the outcome of the single
`fetch` call, and the JSX conditionals become pure rendering functions.
JavaScript numbers that hold byte sizes divided by powers of two are exact,
so the size check is embedded with rational division; JavaScript truthiness
on strings (empty string is falsy) is modelled by `jsTruthy`.
-/

/-- Nutrition record of the backend response (interface `NutritionInfo` in
`App.tsx`): a food name, four numeric fields and an optional error string. -/
structure NutritionInfo where
  name : String
  calories : ℚ
  protein : ℚ
  carbs : ℚ
  fats : ℚ
  error : Option String
deriving DecidableEq

/-- Structured backend response (interface `AnalysisResult` in `App.tsx`). -/
structure AnalysisResult where
  detected_food : List String
  main_ingredient : String
  nutrition_info : NutritionInfo
  healthier_alternative : String
deriving DecidableEq

/-- A file offered to the upload control (antd `RcFile`): identifier, display
name, MIME type string, reported size in bytes, and the raw bytes.  The
`size` field models the metadata the code reads via `file.size`. -/
structure RcFile where
  uid : String
  name : String
  type : String
  size : Nat
  content : List Nat
deriving DecidableEq

/-- The `originFileObj` slot of an antd `UploadFile`: a genuine `Blob`
wrapping the original file, some non-Blob value, or `undefined`.  The code
discriminates these with `instanceof Blob`. -/
inductive OriginFileObj where
  | blob (f : RcFile)
  | notBlob
  | undef
deriving DecidableEq

/-- Result of the `instanceof Blob` test on an `originFileObj` slot:
the underlying file when the slot holds a Blob, nothing otherwise. -/
def instanceofBlob : OriginFileObj → Option RcFile
  | OriginFileObj.blob f => some f
  | OriginFileObj.notBlob => none
  | OriginFileObj.undef => none

/-- Entry of the `fileList` state (antd `UploadFile`), with the fields the
code sets in `beforeUpload`. -/
structure UploadFile where
  uid : String
  name : String
  status : String
  url : String
  originFileObj : OriginFileObj
deriving DecidableEq

/-- Component state of `App`: the five `useState` fields. -/
structure ClientState where
  fileList : List UploadFile
  uploading : Bool
  imageUrl : Option String
  result : Option AnalysisResult
  error : Option String
deriving DecidableEq

/-- Initial component state: every `useState` initialiser in `App.tsx`
(`[]`, `false`, `null`, `null`, `null`). -/
def initState : ClientState :=
  { fileList := [], uploading := false, imageUrl := none,
    result := none, error := none }

/-- The `MAX_FILE_SIZE_MB` constant of `App.tsx`. -/
def MAX_FILE_SIZE_MB : Nat := 4

/-- The standard base64 alphabet, used to model the browser data-URL
encoding of the preview. -/
def base64Alphabet : List Char :=
  "ABCDEFGHIJKLMNOPQRSTUVWXYZabcdefghijklmnopqrstuvwxyz0123456789+/".toList

/-- Character of the base64 alphabet at a given index. -/
def base64Char (n : Nat) : Char := base64Alphabet.getD n '='

/-- Base64 encoding of a chunk of at most three bytes, with padding. -/
def base64Chunk : List Nat → String
  | [] => ""
  | [a] =>
    String.mk [base64Char (a / 4), base64Char (a % 4 * 16)] ++ "=="
  | [a, b] =>
    String.mk [base64Char (a / 4), base64Char (a % 4 * 16 + b / 16),
      base64Char (b % 16 * 4)] ++ "="
  | a :: b :: c :: _ =>
    String.mk [base64Char (a / 4), base64Char (a % 4 * 16 + b / 16),
      base64Char (b % 16 * 4 + c / 64), base64Char (c % 64)]

/-- Base64 encoding of a byte list, three bytes at a time. -/
def base64Encode : List Nat → String
  | [] => ""
  | [a] => base64Chunk [a]
  | [a, b] => base64Chunk [a, b]
  | a :: b :: c :: rest => base64Chunk [a, b, c] ++ base64Encode rest

/-- Model of the browser `FileReader.readAsDataURL` API (external to the
repository): the data URL carrying the base64 encoding of the raw bytes. -/
def readAsDataURL (f : RcFile) : String :=
  "data:" ++ f.type ++ ";base64," ++ base64Encode f.content

/-- Model of the browser `URL.createObjectURL` API (external to the
repository): an opaque blob URL naming the file object. -/
def createObjectURL (f : RcFile) : String := "blob:" ++ f.uid

/-- The single `fileList` entry built in `beforeUpload` upon acceptance:
`uid`, `name`, status `done`, an object URL, and the original file as
`originFileObj`. -/
def acceptedEntry (file : RcFile) : UploadFile :=
  { uid := file.uid, name := file.name, status := "done",
    url := createObjectURL file, originFileObj := OriginFileObj.blob file }

/-- The `beforeUpload` callback of the upload control.  Returns the updated
state together with the toast message (`message.error`) shown on rejection.
The type gate runs first; the size gate divides the byte count by 1024
twice (exact in JavaScript floating point for file sizes, hence embedded as
rational division) and compares against `MAX_FILE_SIZE_MB`.  On acceptance
the preview data URL is stored, the selection is replaced by the single new
entry, and the error state is cleared.  The callback always returns
`Upload.LIST_IGNORE` to antd, so the component state is the whole effect. -/
def beforeUpload (s : ClientState) (file : RcFile) : ClientState × Option String :=
  let isJpgOrPng := file.type = "image/jpeg" ∨ file.type = "image/png"
  if ¬ isJpgOrPng then
    (s, some "You can only upload JPG/PNG file!")
  else
    let isUnderSizeLimit := (file.size : ℚ) / 1024 / 1024 < (MAX_FILE_SIZE_MB : ℚ)
    if ¬ isUnderSizeLimit then
      (s, some ("Image must be smaller than " ++ toString MAX_FILE_SIZE_MB
        ++ "MB for serverless functions!"))
    else
      ({ s with
          imageUrl := some (readAsDataURL file),
          fileList := [acceptedEntry file],
          error := none },
        none)

/-- The `onRemove` callback of the upload control: clears the selection, the
preview and the error state. -/
def onRemove (s : ClientState) : ClientState :=
  { s with fileList := [], imageUrl := none, error := none }

/-- JavaScript truthiness on an optional string: `null`, `undefined` and the
empty string are falsy.  Used for `a || b` chains and `x ? A : B` tests. -/
def jsTruthy : Option String → Option String
  | some s => if s = "" then none else some s
  | none => none

/-- A response body in the modelled universe: either JSON that parses —
read as optional `message` and `error` string fields on the error path, and
as an `AnalysisResult` document on the success path — or a body whose
`json()` read rejects with the message `failMsg`. -/
inductive ResponseBody where
  | jsonDoc (message : Option String) (errorField : Option String) (value : AnalysisResult)
  | unparseable (failMsg : String)
deriving DecidableEq

/-- Outcome of the single `fetch` call: either the promise rejects (network
or transport failure, with the rejection message), or an HTTP response with
a status code and a body arrives. -/
inductive FetchOutcome where
  | networkFailure (msg : String)
  | response (status : Nat) (body : ResponseBody)
deriving DecidableEq

/-- The `Response.ok` flag of the fetch API: status in the range 200-299. -/
def responseOk (status : Nat) : Bool := decide (200 ≤ status ∧ status ≤ 299)

/-- The error message computed for a non-ok response (lines 112-118 of
`App.tsx`): the `message` field of the parsed JSON body if truthy, else the
`error` field if truthy, else `Error <status>`; a body that does not parse
as JSON falls back to `Error <status>` through the inner catch. -/
def errorMessageOf (status : Nat) : ResponseBody → String
  | ResponseBody.jsonDoc m e _ =>
    (((jsTruthy m).orElse fun _ => jsTruthy e).getD ("Error " ++ toString status))
  | ResponseBody.unparseable _ => "Error " ++ toString status

/-- One HTTP request issued by the client: method, URL, and the multipart
form fields, each carrying a raw file object. -/
structure HttpRequest where
  method : String
  url : String
  formFields : List (String × RcFile)
deriving DecidableEq

/-- Complete effect of one `handleUpload` invocation: the state it leaves
behind, the toast message (`message.error`) it pops, and the list of
network requests it issues. -/
structure UploadEffect where
  state : ClientState
  toast : Option String
  requests : List HttpRequest
deriving DecidableEq

/-- The `handleUpload` handler, as a function of the current state and of
the fetch outcome supplied by the environment.  Mirrors the source: an
empty selection toasts and returns; a selected entry whose `originFileObj`
is not a Blob toasts `Invalid file object` and returns; otherwise the form
data carries the original file under field `image`, `uploading` is set,
`error` is cleared, exactly one POST to `/api/analyze` is issued, the
response is dispatched on `ok`, every failure is rethrown into the catch
that sets `error` and clears `result`, and the `finally` clause resets
`uploading` on every path that reached the fetch. -/
def handleUpload (s : ClientState) (o : FetchOutcome) : UploadEffect :=
  match s.fileList with
  | [] => { state := s, toast := some "Please select an image first!", requests := [] }
  | file :: _ =>
    match instanceofBlob file.originFileObj with
    | none => { state := s, toast := some "Invalid file object", requests := [] }
    | some f =>
      let req : HttpRequest :=
        { method := "POST", url := "/api/analyze", formFields := [("image", f)] }
      let s1 : ClientState := { s with uploading := true, error := none }
      let s2 : ClientState :=
        match o with
        | FetchOutcome.networkFailure msg =>
          { s1 with error := some msg, result := none }
        | FetchOutcome.response status body =>
          if responseOk status then
            match body with
            | ResponseBody.jsonDoc _ _ a => { s1 with result := some a }
            | ResponseBody.unparseable msg =>
              { s1 with error := some msg, result := none }
          else
            { s1 with error := some (errorMessageOf status body), result := none }
      { state := { s2 with uploading := false }, toast := none, requests := [req] }

/-- One rendered antd `Statistic` element: its title, numeric value and
unit suffix. -/
structure StatDisplay where
  title : String
  value : ℚ
  suffix : String
deriving DecidableEq

/-- Rendering of the nutrition block (lines 191-214 of `App.tsx`): either
only the error text, or the food name together with the four statistics. -/
inductive NutritionSection where
  | errorOnly (msg : String)
  | full (name : String) (calories protein carbs fats : StatDisplay)
deriving DecidableEq

/-- The nutrition conditional of the result card: a truthy
`nutrition_info.error` renders only that message, otherwise the name and
the four `Statistic` elements with suffixes kcal, g, g, g are rendered. -/
def renderNutrition (n : NutritionInfo) : NutritionSection :=
  match jsTruthy n.error with
  | some e => NutritionSection.errorOnly e
  | none =>
    NutritionSection.full n.name
      { title := "Calories", value := n.calories, suffix := "kcal" }
      { title := "Protein", value := n.protein, suffix := "g" }
      { title := "Carbs", value := n.carbs, suffix := "g" }
      { title := "Fats", value := n.fats, suffix := "g" }

/-- The rendered result section: detected foods list, main ingredient,
nutrition block and healthier-alternative text. -/
structure ResultCards where
  detectedFoods : List String
  mainIngredient : String
  nutrition : NutritionSection
  healthierAlternative : String
deriving DecidableEq

/-- The rendered page below the upload control: the error card is rendered
iff the `error` state is truthy (`error && ...`), the result section iff
the `result` state is non-null (`result && ...`). -/
structure AppView where
  errorCard : Option String
  resultCards : Option ResultCards
deriving DecidableEq

/-- Pure rendering function of the component state (the JSX return of
`App`). -/
def renderApp (s : ClientState) : AppView :=
  { errorCard := jsTruthy s.error
    resultCards := s.result.map fun r =>
      { detectedFoods := r.detected_food
        mainIngredient := r.main_ingredient
        nutrition := renderNutrition r.nutrition_info
        healthierAlternative := r.healthier_alternative } }

/-- States of the client reachable from the initial state by accepting
files, removing the selection, and submitting with arbitrary fetch
outcomes. -/
inductive Reachable : ClientState → Prop where
  | init : Reachable initState
  | select (s : ClientState) (f : RcFile) :
      Reachable s → Reachable (beforeUpload s f).1
  | remove (s : ClientState) :
      Reachable s → Reachable (onRemove s)
  | upload (s : ClientState) (o : FetchOutcome) :
      Reachable s → Reachable (handleUpload s o).state

/-- Test fixture: a small JPEG file. -/
def fJpg : RcFile :=
  { uid := "u1", name := "a.jpg", type := "image/jpeg", size := 100, content := [1, 2, 3] }

/-- Test fixture: a PNG file of exactly 4 MiB, at the size ceiling. -/
def fBig : RcFile :=
  { uid := "u2", name := "b.png", type := "image/png", size := 4194304, content := [] }

/-- Test fixture: a GIF file, outside the admissible MIME types. -/
def fGif : RcFile :=
  { uid := "u3", name := "c.gif", type := "image/gif", size := 10, content := [] }

/-- Test fixture: a small PNG file. -/
def fPng : RcFile :=
  { uid := "u4", name := "d.png", type := "image/png", size := 2048, content := [7, 7] }

/-- Test fixture: a state with the small JPEG accepted into the selection. -/
def readyS : ClientState := { initState with fileList := [acceptedEntry fJpg] }

/-- Test fixture: a `fileList` entry whose `originFileObj` is not a Blob. -/
def badEntry : UploadFile :=
  { uid := "u5", name := "e.jpg", status := "done", url := "blob:u5",
    originFileObj := OriginFileObj.notBlob }

/-- Test fixture: a state selecting the non-Blob entry. -/
def badS : ClientState := { initState with fileList := [badEntry] }

/-- Test fixture: a concrete analysis result without a nutrition error. -/
def sampleResult : AnalysisResult :=
  { detected_food := ["rice", "beans"], main_ingredient := "rice",
    nutrition_info :=
      { name := "rice bowl", calories := 420, protein := 12, carbs := 80,
        fats := 5, error := none },
    healthier_alternative := "brown rice" }

/-- Test fixture: a state holding a prior selection, error and result. -/
def priorS : ClientState :=
  { fileList := [acceptedEntry fJpg], uploading := false,
    imageUrl := some "old-preview", result := some sampleResult,
    error := some "old error" }

/-- The size gate of `beforeUpload`, stated over the byte count: dividing by
1024 twice and comparing against `MAX_FILE_SIZE_MB` is a strict bound of
4194304 bytes (4 MiB). -/
theorem sizeCheck_iff (n : Nat) :
    ((n : ℚ) / 1024 / 1024 < (MAX_FILE_SIZE_MB : ℚ)) ↔ n < 4194304 := by
  rw [div_div, div_lt_iff₀ (by norm_num : (0:ℚ) < 1024 * 1024)]
  have h4 : (MAX_FILE_SIZE_MB : ℚ) * (1024 * 1024) = ((4194304 : Nat) : ℚ) := by
    norm_num [MAX_FILE_SIZE_MB]
  rw [h4, Nat.cast_lt]

/-- Case analysis of `beforeUpload`: the type gate first, then the size gate
over the byte count, then acceptance. -/
theorem beforeUpload_cases (s : ClientState) (f : RcFile) :
    beforeUpload s f =
      if f.type = "image/jpeg" ∨ f.type = "image/png" then
        if f.size < 4194304 then
          ({ s with
              imageUrl := some (readAsDataURL f),
              fileList := [acceptedEntry f],
              error := none }, none)
        else
          (s, some "Image must be smaller than 4MB for serverless functions!")
      else
        (s, some "You can only upload JPG/PNG file!") := by
  unfold beforeUpload
  by_cases ht : f.type = "image/jpeg" ∨ f.type = "image/png"
  · by_cases hs : f.size < 4194304
    · rw [if_neg (not_not_intro ht), if_neg (by simp [sizeCheck_iff, hs]),
        if_pos ht, if_pos hs]
    · rw [if_neg (not_not_intro ht), if_pos (by simp [sizeCheck_iff, hs]),
        if_pos ht, if_neg hs]
      have hmsg : "Image must be smaller than " ++ toString MAX_FILE_SIZE_MB
          ++ "MB for serverless functions!"
          = "Image must be smaller than 4MB for serverless functions!" := by decide
      rw [hmsg]
  · rw [if_pos (by simpa using ht), if_neg ht]

/-- C1: a file offered to the upload control enters the selectable state iff
its MIME type is exactly image/jpeg or image/png and its size is strictly
below 4 MiB; the type gate runs first, and a file failing either gate is
rejected with a toast message and leaves the state (hence the selection)
untouched. -/
theorem admission_control (s : ClientState) (f : RcFile) :
    ((f.type = "image/jpeg" ∨ f.type = "image/png") ∧ f.size < 4 * 1024 * 1024 →
      (beforeUpload s f).1.fileList = [acceptedEntry f] ∧ (beforeUpload s f).2 = none)
  ∧ (¬ (f.type = "image/jpeg" ∨ f.type = "image/png") →
      (beforeUpload s f).1 = s ∧
      (beforeUpload s f).2 = some "You can only upload JPG/PNG file!")
  ∧ ((f.type = "image/jpeg" ∨ f.type = "image/png") ∧ 4 * 1024 * 1024 ≤ f.size →
      (beforeUpload s f).1 = s ∧
      (beforeUpload s f).2 =
        some "Image must be smaller than 4MB for serverless functions!") := by
  refine ⟨?_, ?_, ?_⟩
  · rintro ⟨ht, hsz⟩
    rw [beforeUpload_cases, if_pos ht, if_pos (by omega)]
    exact ⟨rfl, rfl⟩
  · intro ht
    rw [beforeUpload_cases, if_neg ht]
    exact ⟨rfl, rfl⟩
  · rintro ⟨ht, hsz⟩
    rw [beforeUpload_cases, if_pos ht, if_neg (by omega)]
    exact ⟨rfl, rfl⟩

/-- Witness for C1: the small JPEG is accepted, the GIF is rejected by the
type gate, and the 4 MiB PNG is rejected by the size gate. -/
theorem admission_control_witness :
    ((beforeUpload initState fJpg).1.fileList = [acceptedEntry fJpg]
      ∧ (beforeUpload initState fJpg).2 = none)
  ∧ ((beforeUpload initState fGif).1 = initState
      ∧ (beforeUpload initState fGif).2 = some "You can only upload JPG/PNG file!")
  ∧ ((beforeUpload initState fBig).1 = initState
      ∧ (beforeUpload initState fBig).2 =
          some "Image must be smaller than 4MB for serverless functions!") :=
  ⟨(admission_control initState fJpg).1 ⟨Or.inl rfl, by decide⟩,
   (admission_control initState fGif).2.1 (by decide),
   (admission_control initState fBig).2.2 ⟨Or.inr rfl, by decide⟩⟩

/-- C2: invoking `handleUpload` with an empty selection pops the local
validation toast and issues no network request, leaving the state alone. -/
theorem empty_selection_no_post (s : ClientState) (o : FetchOutcome)
    (h : s.fileList = []) :
    handleUpload s o
      = { state := s, toast := some "Please select an image first!",
          requests := [] } := by
  unfold handleUpload
  rw [h]

/-- Witness for C2: submitting from the initial state performs no POST. -/
theorem empty_selection_no_post_witness :
    handleUpload initState (FetchOutcome.networkFailure "down")
      = { state := initState, toast := some "Please select an image first!",
          requests := [] } :=
  empty_selection_no_post initState (FetchOutcome.networkFailure "down") rfl

/-- C3: invoking `handleUpload` with one accepted file selected issues
exactly one POST to /api/analyze whose multipart body carries the original
file object unmodified under the field name image, whatever the outcome and
whatever preview string is held in `imageUrl`. -/
theorem single_post_original_file (s : ClientState) (o : FetchOutcome)
    (g : RcFile) (h : s.fileList = [acceptedEntry g]) :
    (handleUpload s o).requests
      = [{ method := "POST", url := "/api/analyze",
           formFields := [("image", g)] }] := by
  unfold handleUpload
  rw [h]
  rfl

/-- Witness for C3: submitting the accepted JPEG issues the one POST
carrying that file. -/
theorem single_post_original_file_witness :
    (handleUpload readyS
        (FetchOutcome.response 200 (ResponseBody.jsonDoc none none sampleResult))).requests
      = [{ method := "POST", url := "/api/analyze",
           formFields := [("image", fJpg)] }] :=
  single_post_original_file readyS
    (FetchOutcome.response 200 (ResponseBody.jsonDoc none none sampleResult))
    fJpg rfl

/-- C4: the uploading flag is false in the initial state, and an invocation
of `handleUpload` started with the flag false leaves it false on every exit
path: early validation returns, success, non-2xx response, unparseable
body, and network failure. -/
theorem uploading_always_reset (s : ClientState) (o : FetchOutcome)
    (h : s.uploading = false) :
    initState.uploading = false ∧ (handleUpload s o).state.uploading = false := by
  refine ⟨rfl, ?_⟩
  unfold handleUpload
  split
  · exact h
  · split
    · exact h
    · rfl

/-- Witness for C4: a submission that hits a server error leaves the flag
false. -/
theorem uploading_always_reset_witness :
    initState.uploading = false
  ∧ (handleUpload readyS
      (FetchOutcome.response 500 (ResponseBody.unparseable "bad json"))).state.uploading
      = false :=
  uploading_always_reset readyS
    (FetchOutcome.response 500 (ResponseBody.unparseable "bad json")) rfl

/-- C5: on a non-success HTTP status, `handleUpload` surfaces as the current
error the `message` field of the parsed JSON body when it is a non-empty
string, else the `error` field when that is a non-empty string, else the
string `Error <status>` — also when the body does not parse as JSON — and
clears any previous result. -/
theorem error_response_surfacing (s : ClientState) (g : RcFile) (status : Nat)
    (hsel : s.fileList = [acceptedEntry g]) (hbad : responseOk status = false) :
    (∀ m e v, m ≠ "" →
      (handleUpload s (FetchOutcome.response status
          (ResponseBody.jsonDoc (some m) e v))).state.error = some m
      ∧ (handleUpload s (FetchOutcome.response status
          (ResponseBody.jsonDoc (some m) e v))).state.result = none)
  ∧ (∀ e v, e ≠ "" →
      (handleUpload s (FetchOutcome.response status
          (ResponseBody.jsonDoc none (some e) v))).state.error = some e
      ∧ (handleUpload s (FetchOutcome.response status
          (ResponseBody.jsonDoc none (some e) v))).state.result = none)
  ∧ (∀ v,
      (handleUpload s (FetchOutcome.response status
          (ResponseBody.jsonDoc none none v))).state.error
          = some ("Error " ++ toString status)
      ∧ (handleUpload s (FetchOutcome.response status
          (ResponseBody.jsonDoc none none v))).state.result = none)
  ∧ (∀ b,
      (handleUpload s (FetchOutcome.response status
          (ResponseBody.unparseable b))).state.error
          = some ("Error " ++ toString status)
      ∧ (handleUpload s (FetchOutcome.response status
          (ResponseBody.unparseable b))).state.result = none) := by
  refine ⟨?_, ?_, ?_, ?_⟩
  · intro m e v hm
    simp [handleUpload, hsel, acceptedEntry, instanceofBlob, hbad,
      errorMessageOf, jsTruthy, Option.orElse, hm]
  · intro e v he
    simp [handleUpload, hsel, acceptedEntry, instanceofBlob, hbad,
      errorMessageOf, jsTruthy, Option.orElse, he]
  · intro v
    simp [handleUpload, hsel, acceptedEntry, instanceofBlob, hbad,
      errorMessageOf, jsTruthy, Option.orElse]
  · intro b
    simp [handleUpload, hsel, acceptedEntry, instanceofBlob, hbad,
      errorMessageOf]

/-- Witness for C5: a 404 with body message `no food detected` surfaces that
string, and a 500 with an unparseable body surfaces `Error 500`. -/
theorem error_response_surfacing_witness :
    ((handleUpload readyS (FetchOutcome.response 404
        (ResponseBody.jsonDoc (some "no food detected") none sampleResult))).state.error
      = some "no food detected"
    ∧ (handleUpload readyS (FetchOutcome.response 404
        (ResponseBody.jsonDoc (some "no food detected") none sampleResult))).state.result
      = none)
  ∧ ((handleUpload readyS (FetchOutcome.response 500
        (ResponseBody.unparseable "bad"))).state.error = some ("Error " ++ toString 500)
    ∧ (handleUpload readyS (FetchOutcome.response 500
        (ResponseBody.unparseable "bad"))).state.result = none) :=
  ⟨(error_response_surfacing readyS fJpg 404 rfl (by decide)).1
      "no food detected" none sampleResult (by decide),
   (error_response_surfacing readyS fJpg 500 rfl (by decide)).2.2.2 "bad"⟩

/-- C6: on a success status whose JSON body is a valid AnalysisResult
document, `handleUpload` stores the parsed document as the current result
and the current error is null when the submission completes. -/
theorem success_stores_result (s : ClientState) (g : RcFile) (status : Nat)
    (m e : Option String) (a : AnalysisResult)
    (hsel : s.fileList = [acceptedEntry g]) (hok : responseOk status = true) :
    (handleUpload s (FetchOutcome.response status
        (ResponseBody.jsonDoc m e a))).state.result = some a
  ∧ (handleUpload s (FetchOutcome.response status
        (ResponseBody.jsonDoc m e a))).state.error = none := by
  simp [handleUpload, hsel, acceptedEntry, instanceofBlob, hok]

/-- Witness for C6: a 200 carrying the sample result stores it and leaves
no error. -/
theorem success_stores_result_witness :
    (handleUpload readyS (FetchOutcome.response 200
        (ResponseBody.jsonDoc none none sampleResult))).state.result = some sampleResult
  ∧ (handleUpload readyS (FetchOutcome.response 200
        (ResponseBody.jsonDoc none none sampleResult))).state.error = none :=
  success_stores_result readyS fJpg 200 none none sampleResult rfl (by decide)

/-- C7: whenever a result is rendered, its nutrition section is
`renderNutrition` of the nutrition record; a set (truthy) `nutrition_info`
error renders only that message, and an absent error renders the name plus
the four numeric fields with the fixed unit suffixes kcal, g, g, g. -/
theorem nutrition_rendering (s : ClientState) (r : AnalysisResult)
    (hres : s.result = some r) :
    (∀ c, (renderApp s).resultCards = some c →
      c.nutrition = renderNutrition r.nutrition_info)
  ∧ (∀ e, r.nutrition_info.error = some e → e ≠ "" →
      renderNutrition r.nutrition_info = NutritionSection.errorOnly e)
  ∧ (r.nutrition_info.error = none →
      renderNutrition r.nutrition_info = NutritionSection.full r.nutrition_info.name
        { title := "Calories", value := r.nutrition_info.calories, suffix := "kcal" }
        { title := "Protein", value := r.nutrition_info.protein, suffix := "g" }
        { title := "Carbs", value := r.nutrition_info.carbs, suffix := "g" }
        { title := "Fats", value := r.nutrition_info.fats, suffix := "g" }) := by
  refine ⟨?_, ?_, ?_⟩
  · intro c hc
    simp [renderApp, hres] at hc
    rw [← hc]
  · intro e he hne
    simp [renderNutrition, jsTruthy, he, hne]
  · intro he
    simp [renderNutrition, jsTruthy, he]

/-- Witness for C7: the sample result renders its four statistics, and a
result carrying a nutrition error renders only the message. -/
theorem nutrition_rendering_witness :
    renderNutrition sampleResult.nutrition_info
      = NutritionSection.full "rice bowl"
          { title := "Calories", value := 420, suffix := "kcal" }
          { title := "Protein", value := 12, suffix := "g" }
          { title := "Carbs", value := 80, suffix := "g" }
          { title := "Fats", value := 5, suffix := "g" } :=
  (nutrition_rendering { initState with result := some sampleResult }
    sampleResult rfl).2.2 rfl

/-- Invariant of the reachable client states: the error state and the
result state are never both set, because `beforeUpload` clears the error,
the catch of `handleUpload` clears the result, and its success path keeps
the error cleared. -/
theorem reachable_error_or_result {s : ClientState} (h : Reachable s) :
    s.error = none ∨ s.result = none := by
  induction h with
  | init => exact Or.inl rfl
  | select t f _ ih =>
    rw [beforeUpload_cases]
    split_ifs with ht hs
    · exact Or.inl rfl
    · exact ih
    · exact ih
  | remove t _ ih => exact Or.inl rfl
  | upload t o _ ih =>
    unfold handleUpload
    split
    · exact ih
    · split
      · exact ih
      · cases o with
        | networkFailure msg => exact Or.inr rfl
        | response status body =>
          by_cases hok : responseOk status = true
          · cases body with
            | jsonDoc m e v => simp [hok]
            | unparseable b => simp [hok]
          · simp [hok]

/-- C8: in every reachable client state, a non-null error implies the
result state is null and no result section is rendered; when the error is a
non-empty string, the error card shows it; and in no reachable state are
the error card and the result section rendered together. -/
theorem error_excludes_result (s : ClientState) (hr : Reachable s) :
    (s.error ≠ none →
      s.result = none
      ∧ (renderApp s).resultCards = none
      ∧ ∀ e, s.error = some e → e ≠ "" → (renderApp s).errorCard = some e)
  ∧ ¬ ((renderApp s).errorCard ≠ none ∧ (renderApp s).resultCards ≠ none) := by
  have hinv := reachable_error_or_result hr
  constructor
  · intro he
    have hres : s.result = none := hinv.resolve_left he
    refine ⟨hres, ?_, ?_⟩
    · simp [renderApp, hres]
    · intro e hse hne
      simp [renderApp, jsTruthy, hse, hne]
  · rintro ⟨hec, hrc⟩
    rcases hinv with h0 | h0
    · exact hec (by simp [renderApp, h0, jsTruthy])
    · exact hrc (by simp [renderApp, h0])

/-- Witness for C8: after accepting the JPEG and failing the submission on
the network, the reachable state renders the error and no result. -/
theorem error_excludes_result_witness :
    (handleUpload (beforeUpload initState fJpg).1
        (FetchOutcome.networkFailure "boom")).state.result = none
  ∧ (renderApp (handleUpload (beforeUpload initState fJpg).1
        (FetchOutcome.networkFailure "boom")).state).resultCards = none
  ∧ (renderApp (handleUpload (beforeUpload initState fJpg).1
        (FetchOutcome.networkFailure "boom")).state).errorCard = some "boom" := by
  have hr : Reachable (handleUpload (beforeUpload initState fJpg).1
      (FetchOutcome.networkFailure "boom")).state :=
    Reachable.upload _ _ (Reachable.select initState fJpg Reachable.init)
  have herr : (handleUpload (beforeUpload initState fJpg).1
      (FetchOutcome.networkFailure "boom")).state.error = some "boom" := by
    rw [beforeUpload_cases]
    decide
  have h := error_excludes_result _ hr
  have h1 := h.1 (by rw [herr]; simp)
  exact ⟨h1.1, h1.2.1, h1.2.2 "boom" herr (by decide)⟩

/-- C9: accepting a new valid file replaces any prior selection with
exactly the one new entry, clears a prior error, and leaves a previously
rendered result untouched. -/
theorem new_selection_replaces (s : ClientState) (f : RcFile)
    (ht : f.type = "image/jpeg" ∨ f.type = "image/png")
    (hsz : f.size < 4 * 1024 * 1024) :
    (beforeUpload s f).1.fileList = [acceptedEntry f]
  ∧ (beforeUpload s f).1.error = none
  ∧ (beforeUpload s f).1.result = s.result := by
  rw [beforeUpload_cases, if_pos ht, if_pos (by omega)]
  exact ⟨rfl, rfl, rfl⟩

/-- Witness for C9: accepting the PNG over a state holding a prior
selection, a prior error and a rendered result replaces the selection,
clears the error and keeps the result. -/
theorem new_selection_replaces_witness :
    (beforeUpload priorS fPng).1.fileList = [acceptedEntry fPng]
  ∧ (beforeUpload priorS fPng).1.error = none
  ∧ (beforeUpload priorS fPng).1.result = some sampleResult := by
  have h := new_selection_replaces priorS fPng (Or.inr rfl) (by decide)
  exact ⟨h.1, h.2.1, h.2.2⟩

/-- C10: invoking `handleUpload` while the selected entry holds no Blob as
its underlying file object pops the toast Invalid file object and returns
before any network call, leaving the whole state (uploading flag, result
and error included) unchanged. -/
theorem invalid_file_object_guard (s : ClientState) (o : FetchOutcome)
    (file : UploadFile) (rest : List UploadFile)
    (hsel : s.fileList = file :: rest)
    (hnb : instanceofBlob file.originFileObj = none) :
    handleUpload s o
      = { state := s, toast := some "Invalid file object", requests := [] } := by
  simp only [handleUpload, hsel, hnb]

/-- Witness for C10: submitting the non-Blob entry issues no request and
leaves the state unchanged. -/
theorem invalid_file_object_guard_witness :
    handleUpload badS (FetchOutcome.response 200
        (ResponseBody.jsonDoc none none sampleResult))
      = { state := badS, toast := some "Invalid file object", requests := [] } :=
  invalid_file_object_guard badS
    (FetchOutcome.response 200 (ResponseBody.jsonDoc none none sampleResult))
    badEntry [] rfl rfl
